import Mathlib

/-!
Verification of src/modules/lotamePanoramaIdSystem.js (Lotame Panorama ID
user-id submodule) against its natural-language specification.

The module is shallowly embedded: browser storage becomes an explicit
`Storage` record threaded through every function, `Date.now()` /
`timestamp()` become an explicit `now : Int` parameter (milliseconds since
epoch), JavaScript values that can be a string, a number or `undefined`
become `JSVal`, and numbers that can be `NaN` (the result of `parseInt` on
a non-numeric string) become `JSNum`.  Network responses are parameters of
the response handlers, an HTTP request is recorded as a boolean effect
flag.  JSON response fields are restricted to the shapes the module reads:
optional strings, an optional integer timestamp, an optional integer
error-code array.
-/

/-- A JavaScript number that may be `NaN` (every comparison with `NaN`
is false).  Integral milliseconds timestamps only; no claim involves
fractional values. -/
inductive JSNum where
  | nan : JSNum
  | int : Int → JSNum
deriving DecidableEq, Repr

/-- The comparison `a < x` for an integer `a` and a JS number `x`
(false when `x` is NaN). -/
def jsLtNum (a : Int) : JSNum → Bool
  | JSNum.nan => false
  | JSNum.int m => a < m

/-- The comparison `a > x` for an integer `a` and a JS number `x`
(false when `x` is NaN). -/
def jsGtNum (a : Int) : JSNum → Bool
  | JSNum.nan => false
  | JSNum.int m => m < a

/-- A JavaScript value as passed around by the module: a string, a number
or `undefined`. -/
inductive JSVal where
  | vstr : String → JSVal
  | vnum : Int → JSVal
  | vundef : JSVal
deriving DecidableEq, Repr

/-- JavaScript truthiness on `JSVal` (`""`, `0` and `undefined` are
falsy). -/
def truthy : JSVal → Bool
  | JSVal.vstr s => s ≠ ""
  | JSVal.vnum n => n ≠ 0
  | JSVal.vundef => false

/-- Numeric value of a decimal digit character, `none` otherwise. -/
def digitVal (c : Char) : Option Nat :=
  if 48 ≤ c.toNat ∧ c.toNat ≤ 57 then some (c.toNat - 48) else none

/-- Longest prefix of decimal digits, as digit values (JS `parseInt`
reads a digit prefix and ignores the rest). -/
def takeDigits : List Char → List Nat
  | [] => []
  | c :: cs =>
    match digitVal c with
    | some d => d :: takeDigits cs
    | none => []

/-- Big-endian digit list to natural number (Horner). -/
def digitsToNat (l : List Nat) : Nat :=
  l.foldl (fun acc d => acc * 10 + d) 0

/-- Digit-prefix parse with a sign flag; `nan` when no digit is present,
mirroring JS `parseInt` returning `NaN`. -/
def parseUnsigned (cs : List Char) (neg : Bool) : JSNum :=
  match takeDigits cs with
  | [] => JSNum.nan
  | ds => if neg then JSNum.int (-(digitsToNat ds : Int)) else JSNum.int (digitsToNat ds)

/-- Sign handling of JS `parseInt` over a character list. -/
def parseIntChars (cs : List Char) : JSNum :=
  match cs with
  | [] => JSNum.nan
  | c :: rest =>
    if c = '-' then parseUnsigned rest true
    else if c = '+' then parseUnsigned rest false
    else parseUnsigned cs false

/-- JavaScript `parseInt(s, 10)`: skip leading spaces, optional sign,
longest digit prefix; `NaN` when no digit is found. -/
def parseIntJS (s : String) : JSNum :=
  parseIntChars (s.data.dropWhile (fun c => c = ' '))

/-- Decimal digit character for a digit value. -/
def digitChar (d : Nat) : Char := Char.ofNat (48 + d)

/-- Little-endian decimal digits with explicit fuel (so that the kernel
can evaluate it on concrete inputs); agrees with Mathlib's Nat.digits. -/
def natDigitsAux : Nat → Nat → List Nat
  | 0, _ => []
  | _ + 1, 0 => []
  | fuel + 1, n + 1 => (n + 1) % 10 :: natDigitsAux fuel ((n + 1) / 10)

/-- Little-endian decimal digits of a natural number. -/
def natDigits (n : Nat) : List Nat := natDigitsAux n n

/-- JavaScript `String(m)` for a natural number. -/
def natToStr (m : Nat) : String :=
  if m = 0 then "0" else String.mk ((natDigits m).reverse.map digitChar)

/-- JavaScript `String(n)` for an integer. -/
def intToStr (n : Int) : String :=
  if n < 0 then "-" ++ natToStr n.natAbs else natToStr n.natAbs

/-- JavaScript string coercion of a `JSVal` (as performed by cookie and
localStorage writes). -/
def jsToString : JSVal → String
  | JSVal.vstr s => s
  | JSVal.vnum n => intToStr n
  | JSVal.vundef => "undefined"



/-- The two browser storage backends visible to the module: a cookie jar
(value plus native expiry timestamp per key) and localStorage (a plain
string map), with availability flags.  Modelled from the spec: the
storage manager (src/storageManager.js) is not under src/; §4.1 describes
the cookie-like backend as natively expiring at the write's expiry
timestamp and the plain backend as a bare key/value store. -/
structure Storage where
  cookies : String → Option (String × Int)
  ls : String → Option String
  cookiesEnabled : Bool
  hasLS : Bool

/-- Modelled from the spec: storage.setCookie records value and native
expiry for the key. -/
def setCookie (st : Storage) (k v : String) (e : Int) : Storage :=
  { st with cookies := fun q => if q = k then some (v, e) else st.cookies q }

/-- Modelled from the spec: storage.getCookie at time `now` yields the
value while `now` is before the native expiry, else absent (a cookie set
with a past expiry is deleted by the browser). -/
def getCookie (st : Storage) (now : Int) (k : String) : Option String :=
  match st.cookies k with
  | some (v, e) => if now < e then some v else none
  | none => none

/-- Modelled from the spec: plain localStorage write. -/
def setDataInLocalStorage (st : Storage) (k v : String) : Storage :=
  { st with ls := fun q => if q = k then some v else st.ls q }

/-- Modelled from the spec: plain localStorage read. -/
def getDataFromLocalStorage (st : Storage) (k : String) : Option String :=
  st.ls k

/-- Modelled from the spec: localStorage removal. -/
def removeDataFromLocalStorage (st : Storage) (k : String) : Storage :=
  { st with ls := fun q => if q = k then none else st.ls q }

def KEY_ID : String := "panoramaId"

def KEY_EXPIRY : String := KEY_ID ++ "_expiry"

def KEY_PROFILE : String := "_cc_id"

def NINE_MONTHS_MS : Int := 23328000 * 1000

def DAYS_TO_CACHE : Int := 7

def DAY_MS : Int := 60 * 60 * 24 * 1000

def MISSING_CORE_CONSENT : Int := 111

/-- Modelled from the spec: utils.isEmpty (src/utils.js is not under
src/) on an optional string value: empty means absent or the empty
string.  Also used for plain JS falsiness of a string-or-absent value. -/
def isEmptyOpt : Option String → Bool
  | none => true
  | some s => s = ""

/-- Modelled from the spec: the utils.isStr guard on response id fields
(src/utils.js is not under src/) is read by §4.4 as "is a non-empty
string". -/
def isNonEmptyStr : Option String → Bool
  | none => false
  | some s => s ≠ ""

/-- setProfileId: write the Lotame first-party profile id to both
backends with a nine-month expiry. -/
def setProfileId (st : Storage) (now : Int) (profileId : String) : Storage :=
  let st1 := if st.cookiesEnabled then setCookie st KEY_PROFILE profileId (now + NINE_MONTHS_MS) else st
  if st1.hasLS then setDataInLocalStorage st1 KEY_PROFILE profileId else st1

/-- getProfileId: cookie first, then local storage when the cookie value
is falsy. -/
def getProfileId (st : Storage) (now : Int) : Option String :=
  let profileId := if st.cookiesEnabled then getCookie st now KEY_PROFILE else none
  if isEmptyOpt profileId && st.hasLS then getDataFromLocalStorage st KEY_PROFILE else profileId

/-- getFromStorage: cookie first; local storage fallback is guarded by
the companion expiry record key_exp (absent or empty record trusts the
value; a record parsing to NaN hides it; a numeric record hides it once
in the past). -/
def getFromStorage (st : Storage) (now : Int) (key : String) : Option String :=
  let value := if st.cookiesEnabled then getCookie st now key else none
  if st.hasLS && value = none then
    match getDataFromLocalStorage st (key ++ "_exp") with
    | none => getDataFromLocalStorage st key
    | some s =>
      if s = "" then getDataFromLocalStorage st key
      else
        match parseIntJS s with
        | JSNum.int e => if e - now > 0 then getDataFromLocalStorage st key else none
        | JSNum.nan => none
  else value

/-- saveLotameCache: when key and value are truthy, write the value to
the cookie backend with native expiry, and to localStorage together with
the stringified companion expiry record.  An absent expiry argument
triggers the JS default parameter now + 7 days. -/
def saveLotameCache (st : Storage) (now : Int) (key : String) (value : JSVal)
    (expirationTimestamp : Option Int) : Storage :=
  let expTs := expirationTimestamp.getD (now + DAYS_TO_CACHE * DAY_MS)
  if key ≠ "" ∧ truthy value then
    let st1 := if st.cookiesEnabled then setCookie st key (jsToString value) expTs else st
    if st1.hasLS then
      setDataInLocalStorage (setDataInLocalStorage st1 (key ++ "_exp") (intToStr expTs)) key (jsToString value)
    else st1
  else st

/-- clearLotameCache: expire the cookie immediately (empty value, epoch
expiry) and remove the localStorage entry. -/
def clearLotameCache (st : Storage) (key : String) : Storage :=
  if key ≠ "" then
    let st1 := if st.cookiesEnabled then setCookie st key "" 0 else st
    if st1.hasLS then removeDataFromLocalStorage st1 key else st1
  else st

/-- The read-model built by getLotameLocalCache. -/
structure LotameCache where
  data : Option String
  expiryTimestampMs : JSNum
  clientExpiryTimestampMs : JSNum
deriving DecidableEq, Repr

/-- getLotameLocalCache: read the cached id, the client suppression
expiry (only when a clientId is supplied) and the global expiry record.
The try/catch of the source is unreachable here: every operation in the
block is total (in particular parseInt yields NaN rather than an
exception), so no logging path is modelled. -/
def getLotameLocalCache (st : Storage) (now : Int) (clientId : Option String) : LotameCache :=
  let cache0 : LotameCache :=
    { data := getFromStorage st now KEY_ID
      expiryTimestampMs := JSNum.int 0
      clientExpiryTimestampMs := JSNum.int 0 }
  let cache1 :=
    if !(isEmptyOpt clientId) then
      match getFromStorage st now (KEY_EXPIRY ++ "_" ++ clientId.getD "") with
      | some raw => { cache0 with clientExpiryTimestampMs := parseIntJS raw }
      | none => cache0
    else cache0
  match getFromStorage st now KEY_EXPIRY with
  | some raw => { cache1 with expiryTimestampMs := parseIntJS raw }
  | none => cache1

/-- getCurrentPanoId: the cached id when not yet expired and non-empty. -/
def getCurrentPanoId (now : Int) (localCache : LotameCache) : Option String :=
  let hasExpiredPanoId := jsGtNum now localCache.expiryTimestampMs
  if !hasExpiredPanoId && !(isEmptyOpt localCache.data) then localCache.data else none

/-- The option bag handed to processResponseIDs. -/
structure ResponseOptions where
  profileId : Option String
  coreId : Option String
  clientId : Option String
  noConsent : Option String
  expiry : Option Int
  consentIsErrorFree : Bool
deriving DecidableEq, Repr

/-- The expiry response field as the JS value passed to saveLotameCache
(a number, or undefined when the field is absent). -/
def jsValOfExpiry : Option Int → JSVal
  | some n => JSVal.vnum n
  | none => JSVal.vundef

/-- The part of processResponseIDs after the client-consent block
(factored out because the CLIENT no-consent branch returns early). -/
def processResponseTail (st0 : Storage) (now : Int) (o : ResponseOptions) :
    Storage × Option String :=
  let st1 := saveLotameCache st0 now KEY_EXPIRY (jsValOfExpiry o.expiry) o.expiry
  if isNonEmptyStr o.profileId then
    let st2 := if o.consentIsErrorFree then setProfileId st1 now (o.profileId.getD "") else st1
    if isNonEmptyStr o.coreId then
      (saveLotameCache st2 now KEY_ID (JSVal.vstr (o.coreId.getD "")) o.expiry, o.coreId)
    else (clearLotameCache st2 KEY_ID, none)
  else
    let st2 := if o.consentIsErrorFree then clearLotameCache st1 KEY_PROFILE else st1
    (clearLotameCache st2 KEY_ID, none)

/-- processResponseIDs: client suppression window handling first (clear
on consent-error-free, write and stop on a CLIENT no-consent), then the
global expiry record, then the profile/core id transition.  Returns the
updated storage and the stored core id handed to the callback. -/
def processResponseIDs (st : Storage) (now : Int) (o : ResponseOptions) :
    Storage × Option String :=
  if !(isEmptyOpt o.clientId) && o.consentIsErrorFree then
    processResponseTail (clearLotameCache st (KEY_EXPIRY ++ "_" ++ o.clientId.getD "")) now o
  else if !(isEmptyOpt o.clientId) && (o.noConsent == some "CLIENT") then
    (saveLotameCache st now (KEY_EXPIRY ++ "_" ++ o.clientId.getD "") (jsValOfExpiry o.expiry) o.expiry, none)
  else
    processResponseTail st now o

/-- decode: wrap a string value into the namespaced output shape (`some
s` stands for the object mapping lotamePanoramaId to s); undefined for
non-string input.  The isStr guard is modelled from the spec (§6). -/
def decode : JSVal → Option String
  | JSVal.vstr s => some s
  | _ => none

/-- Whether sendUserData issues its POST: a non-empty clientId and a
non-empty hashed identifier are required (configParams.hems is an
optional array; the first element is used when the array is non-empty,
per the isEmpty/isArray dance in the source). -/
def sendUserDataIssues (clientId : Option String) (hems : Option (List String)) : Bool :=
  let hem : Option String :=
    match hems with
    | some (h :: _) => some h
    | _ => none
  !(isEmptyOpt clientId) && !(isEmptyOpt hem)

/-- The three shapes a getId call can return: the suppression marker
(id undefined with reason NO_CLIENT_CONSENT), a synchronous id, or the
deferred resolution callback (carrying its closure data: the localCache
snapshot and the stored profile id). -/
inductive GetIdResult where
  | suppressed : GetIdResult
  | syncId : String → GetIdResult
  | deferred : LotameCache → Option String → GetIdResult
deriving DecidableEq, Repr

/-- A getId outcome: the returned shape plus effect flags recording
whether sendUserData was invoked and whether its POST was issued. -/
structure GetIdOutcome where
  result : GetIdResult
  sendUserDataCalled : Bool
  sideCallIssued : Bool
deriving DecidableEq, Repr

/-- getId: load the local cache for the configured clientId; return the
suppression marker when the client no-consent window is active;
otherwise invoke sendUserData, return a fresh cached id synchronously
when present, else the deferred resolution callback. -/
def getId (st : Storage) (now : Int) (clientId : Option String)
    (hems : Option (List String)) : GetIdOutcome :=
  let hasCustomClientId := !(isEmptyOpt clientId)
  let localCache := getLotameLocalCache st now clientId
  if hasCustomClientId && jsLtNum now localCache.clientExpiryTimestampMs then
    { result := GetIdResult.suppressed, sendUserDataCalled := false, sideCallIssued := false }
  else
    let issued := sendUserDataIssues clientId hems
    let currentPanoId := getCurrentPanoId now localCache
    if !(isEmptyOpt currentPanoId) then
      { result := GetIdResult.syncId (currentPanoId.getD ""),
        sendUserDataCalled := true, sideCallIssued := issued }
    else
      { result := GetIdResult.deferred localCache (getProfileId st now),
        sendUserDataCalled := true, sideCallIssued := issued }

/-- What invoking the deferred resolution callback does before any
response arrives: re-evaluate getCurrentPanoId on the captured snapshot
(the source closes over the localCache object loaded at getId time, not
over live storage); invoke the callback immediately on a hit, else issue
the network request. -/
structure ResolveOutcome where
  callbackValue : Option (Option String)
  networkIssued : Bool
deriving DecidableEq, Repr

/-- The deferred resolution callback returned by getId, invoked at time
`now` (later than the getId call). -/
def resolveIdFunction (snapshot : LotameCache) (now : Int) : ResolveOutcome :=
  let currentPanoId := getCurrentPanoId now snapshot
  if !(isEmptyOpt currentPanoId) then
    { callbackValue := some currentPanoId, networkIssued := false }
  else
    { callbackValue := none, networkIssued := true }

/-- A parsed JSON response body, with the fields the module reads. -/
structure ResponseJson where
  profile_id : Option String
  core_id : Option String
  no_consent : Option String
  expiry_ts : Option Int
  errors : Option (List Int)
deriving DecidableEq, Repr

/-- The outcome of JSON.parse on a response body: an exception, or an
object. -/
inductive ParsedBody where
  | throwErr : ParsedBody
  | ok : ResponseJson → ParsedBody
deriving DecidableEq, Repr

/-- consentIsErrorFree: the errors array does not contain code 111. -/
def consentErrorFree (errors : Option (List Int)) : Bool :=
  !(match errors with
    | some l => decide (MISSING_CORE_CONSENT ∈ l)
    | none => false)

/-- The ajax success handler of the /id flow: an absent (falsy) response
body skips processing, a JSON.parse exception is caught and logged; both
leave storage unchanged and hand undefined to the callback.  A parsed
object goes through processResponseIDs.  The sendUserData success
handler runs the same code with no callback. -/
def handleIdResponse (st : Storage) (now : Int) (clientId : Option String)
    (response : Option ParsedBody) : Storage × Option String :=
  match response with
  | none => (st, none)
  | some ParsedBody.throwErr => (st, none)
  | some (ParsedBody.ok r) =>
    processResponseIDs st now
      { profileId := r.profile_id, coreId := r.core_id, clientId := clientId,
        noConsent := r.no_consent, expiry := r.expiry_ts,
        consentIsErrorFree := consentErrorFree r.errors }

section RoundTrip

theorem digit_facts : ∀ d < 10, digitVal (digitChar d) = some d ∧
    digitChar d ≠ ' ' ∧ digitChar d ≠ '-' ∧ digitChar d ≠ '+' := by decide

theorem takeDigits_map (l : List Nat) (h : ∀ d ∈ l, d < 10) :
    takeDigits (l.map digitChar) = l := by
  induction l with
  | nil => rfl
  | cons d t ih =>
    have hd := (digit_facts d (h d (by simp))).1
    simp only [List.map_cons, takeDigits, hd]
    rw [ih (fun x hx => h x (by simp [hx]))]

theorem foldl_reverse_ofDigits (l : List Nat) (a : Nat) :
    List.foldl (fun acc d => acc * 10 + d) a l.reverse
      = a * 10 ^ l.length + Nat.ofDigits 10 l := by
  induction l generalizing a with
  | nil => simp [Nat.ofDigits]
  | cons d t ih =>
    simp only [List.reverse_cons, List.foldl_append, List.foldl_cons, List.foldl_nil,
      Nat.ofDigits_cons, List.length_cons, ih]
    ring

theorem digitsToNat_reverse_digits (m : Nat) :
    digitsToNat ((Nat.digits 10 m).reverse) = m := by
  have h := foldl_reverse_ofDigits (Nat.digits 10 m) 0
  simp only [digitsToNat, h, Nat.zero_mul, Nat.zero_add]
  exact_mod_cast Nat.ofDigits_digits 10 m

end RoundTrip

theorem natDigitsAux_eq (fuel n : Nat) (h : n ≤ fuel) :
    natDigitsAux fuel n = Nat.digits 10 n := by
  induction fuel generalizing n with
  | zero =>
    have hn : n = 0 := by omega
    subst hn
    simp [natDigitsAux, Nat.digits_zero]
  | succ f ih =>
    cases n with
    | zero => simp [natDigitsAux, Nat.digits_zero]
    | succ m =>
      rw [natDigitsAux, Nat.digits_def' (by norm_num : 1 < 10) (Nat.succ_pos m),
        ih ((m + 1) / 10) (by omega)]

theorem natDigits_eq (n : Nat) : natDigits n = Nat.digits 10 n :=
  natDigitsAux_eq n n le_rfl

theorem natToStr_data (m : Nat) (h : m ≠ 0) :
    (natToStr m).data = ((Nat.digits 10 m).reverse).map digitChar := by
  simp [natToStr, h, natDigits_eq]

theorem digits_reverse_lt (m : Nat) :
    ∀ d ∈ (Nat.digits 10 m).reverse, d < 10 := by
  intro d hd
  exact Nat.digits_lt_base (by norm_num) (List.mem_reverse.mp hd)

theorem takeDigits_natToStr (m : Nat) (h : m ≠ 0) :
    takeDigits ((natToStr m).data) = (Nat.digits 10 m).reverse := by
  rw [natToStr_data m h]
  exact takeDigits_map _ (digits_reverse_lt m)

theorem parseUnsigned_natToStr (m : Nat) (h : m ≠ 0) (neg : Bool) :
    parseUnsigned ((natToStr m).data) neg
      = if neg then JSNum.int (-(m : Int)) else JSNum.int m := by
  have hne : Nat.digits 10 m ≠ [] := Nat.digits_ne_nil_iff_ne_zero.mpr h
  have htd := takeDigits_natToStr m h
  have hdig := digitsToNat_reverse_digits m
  rcases hrev : (Nat.digits 10 m).reverse with _ | ⟨d, t⟩
  · exact absurd (by simpa using congrArg List.reverse hrev) hne
  · rw [hrev] at htd hdig
    simp only [parseUnsigned, htd, hdig]

theorem natToStr_head (m : Nat) (h : m ≠ 0) :
    ∃ d t, (natToStr m).data = digitChar d :: t ∧ d < 10 := by
  have hne : Nat.digits 10 m ≠ [] := Nat.digits_ne_nil_iff_ne_zero.mpr h
  rcases hrev : (Nat.digits 10 m).reverse with _ | ⟨d, t⟩
  · exact absurd (by simpa using congrArg List.reverse hrev) hne
  · refine ⟨d, t.map digitChar, ?_, ?_⟩
    · rw [natToStr_data m h, hrev, List.map_cons]
    · exact digits_reverse_lt m d (by rw [hrev]; simp)

theorem parseIntJS_natToStr (m : Nat) : parseIntJS (natToStr m) = JSNum.int m := by
  by_cases h : m = 0
  · subst h; decide
  · obtain ⟨d, t, hdata, hd10⟩ := natToStr_head m h
    obtain ⟨-, hsp, hmin, hpl⟩ := digit_facts d hd10
    have hdrop : ((natToStr m).data).dropWhile (fun c => c = ' ') = (natToStr m).data := by
      rw [hdata, List.dropWhile_cons]
      simp [hsp]
    rw [parseIntJS, hdrop, hdata, parseIntChars]
    simp only [hmin, hpl, if_false, ← hdata]
    simpa using parseUnsigned_natToStr m h false

theorem parseIntJS_intToStr (n : Int) : parseIntJS (intToStr n) = JSNum.int n := by
  by_cases hn : n < 0
  · have hm : n.natAbs ≠ 0 := by omega
    have hdata : (intToStr n).data = '-' :: (natToStr n.natAbs).data := by
      simp [intToStr, hn, String.data_append]
    obtain ⟨d, t, hdd, hd10⟩ := natToStr_head n.natAbs hm
    have hdrop : ((intToStr n).data).dropWhile (fun c => c = ' ')
        = '-' :: (natToStr n.natAbs).data := by
      rw [hdata, List.dropWhile_cons]; simp
    rw [parseIntJS, hdrop, parseIntChars]
    simp only [if_pos rfl]
    rw [parseUnsigned_natToStr n.natAbs hm true]
    have hcast : (n.natAbs : Int) = -n := by omega
    simp [hcast]
  · have hcast : (n.natAbs : Int) = n := by omega
    have : intToStr n = natToStr n.natAbs := by simp [intToStr, hn]
    rw [this, parseIntJS_natToStr]
    rw [JSNum.int.injEq]
    exact hcast

theorem String.ne_of_length_ne {s t : String} (h : s.length ≠ t.length) : s ≠ t :=
  fun he => h (he ▸ rfl)


theorem length_clientKey (c : String) : (KEY_EXPIRY ++ "_" ++ c).length = 18 + c.length := by
  rw [String.length_append]
  have h : (KEY_EXPIRY ++ "_").length = 18 := by decide
  omega

theorem length_exp_suffix (q : String) : (q ++ "_exp").length = q.length + 4 := by
  rw [String.length_append]
  have h : ("_exp" : String).length = 4 := by decide
  omega

theorem self_ne_exp (q : String) : q ≠ q ++ "_exp" := by
  apply String.ne_of_length_ne
  rw [length_exp_suffix]
  omega

theorem clientKey_ne_KEY_ID (c : String) : KEY_EXPIRY ++ "_" ++ c ≠ KEY_ID := by
  apply String.ne_of_length_ne
  rw [length_clientKey]
  have h : KEY_ID.length = 10 := by decide
  omega

theorem clientKey_ne_KEY_ID_exp (c : String) : KEY_EXPIRY ++ "_" ++ c ≠ KEY_ID ++ "_exp" := by
  apply String.ne_of_length_ne
  rw [length_clientKey, length_exp_suffix]
  have h : KEY_ID.length = 10 := by decide
  omega

theorem clientKey_ne_KEY_PROFILE (c : String) : KEY_EXPIRY ++ "_" ++ c ≠ KEY_PROFILE := by
  apply String.ne_of_length_ne
  rw [length_clientKey]
  have h : KEY_PROFILE.length = 6 := by decide
  omega

theorem clientKey_exp_ne_KEY_ID (c : String) : (KEY_EXPIRY ++ "_" ++ c) ++ "_exp" ≠ KEY_ID := by
  apply String.ne_of_length_ne
  rw [length_exp_suffix, length_clientKey]
  have h : KEY_ID.length = 10 := by decide
  omega

theorem clientKey_exp_ne_KEY_ID_exp (c : String) :
    (KEY_EXPIRY ++ "_" ++ c) ++ "_exp" ≠ KEY_ID ++ "_exp" := by
  apply String.ne_of_length_ne
  rw [length_exp_suffix, length_clientKey, length_exp_suffix]
  have h : KEY_ID.length = 10 := by decide
  omega

theorem clientKey_exp_ne_KEY_PROFILE (c : String) :
    (KEY_EXPIRY ++ "_" ++ c) ++ "_exp" ≠ KEY_PROFILE := by
  apply String.ne_of_length_ne
  rw [length_exp_suffix, length_clientKey]
  have h : KEY_PROFILE.length = 6 := by decide
  omega

@[simp] theorem saveLotameCache_cookiesEnabled (st : Storage) (now : Int) (k : String)
    (v : JSVal) (e : Option Int) :
    (saveLotameCache st now k v e).cookiesEnabled = st.cookiesEnabled := by
  cases hce : st.cookiesEnabled <;> cases hls : st.hasLS <;>
    simp [saveLotameCache, setCookie, setDataInLocalStorage, hce, hls] <;> split <;> simp_all

@[simp] theorem saveLotameCache_hasLS (st : Storage) (now : Int) (k : String)
    (v : JSVal) (e : Option Int) :
    (saveLotameCache st now k v e).hasLS = st.hasLS := by
  cases hce : st.cookiesEnabled <;> cases hls : st.hasLS <;>
    simp [saveLotameCache, setCookie, setDataInLocalStorage, hce, hls] <;> split <;> simp_all

@[simp] theorem clearLotameCache_cookiesEnabled (st : Storage) (k : String) :
    (clearLotameCache st k).cookiesEnabled = st.cookiesEnabled := by
  cases hce : st.cookiesEnabled <;> cases hls : st.hasLS <;>
    simp [clearLotameCache, setCookie, removeDataFromLocalStorage, hce, hls] <;> split <;> simp_all

@[simp] theorem clearLotameCache_hasLS (st : Storage) (k : String) :
    (clearLotameCache st k).hasLS = st.hasLS := by
  cases hce : st.cookiesEnabled <;> cases hls : st.hasLS <;>
    simp [clearLotameCache, setCookie, removeDataFromLocalStorage, hce, hls] <;> split <;> simp_all

@[simp] theorem setProfileId_cookiesEnabled (st : Storage) (now : Int) (p : String) :
    (setProfileId st now p).cookiesEnabled = st.cookiesEnabled := by
  cases hce : st.cookiesEnabled <;> cases hls : st.hasLS <;>
    simp [setProfileId, setCookie, setDataInLocalStorage, hce, hls]

@[simp] theorem setProfileId_hasLS (st : Storage) (now : Int) (p : String) :
    (setProfileId st now p).hasLS = st.hasLS := by
  cases hce : st.cookiesEnabled <;> cases hls : st.hasLS <;>
    simp [setProfileId, setCookie, setDataInLocalStorage, hce, hls]

theorem saveLotameCache_cookies_ne (st : Storage) (now : Int) (k : String)
    (v : JSVal) (e : Option Int) (q : String) (h : q ≠ k) :
    (saveLotameCache st now k v e).cookies q = st.cookies q := by
  cases hce : st.cookiesEnabled <;> cases hls : st.hasLS <;>
    simp [saveLotameCache, setCookie, setDataInLocalStorage, hce, hls, h] <;> split <;> simp_all

theorem saveLotameCache_ls_ne (st : Storage) (now : Int) (k : String)
    (v : JSVal) (e : Option Int) (q : String) (h1 : q ≠ k) (h2 : q ≠ k ++ "_exp") :
    (saveLotameCache st now k v e).ls q = st.ls q := by
  cases hce : st.cookiesEnabled <;> cases hls : st.hasLS <;>
    simp [saveLotameCache, setCookie, setDataInLocalStorage, hce, hls, h1, h2] <;> split <;> simp_all

theorem clearLotameCache_cookies_ne (st : Storage) (k : String) (q : String) (h : q ≠ k) :
    (clearLotameCache st k).cookies q = st.cookies q := by
  cases hce : st.cookiesEnabled <;> cases hls : st.hasLS <;>
    simp [clearLotameCache, setCookie, removeDataFromLocalStorage, hce, hls, h] <;> split <;> simp_all

theorem clearLotameCache_ls_ne (st : Storage) (k : String) (q : String) (h : q ≠ k) :
    (clearLotameCache st k).ls q = st.ls q := by
  cases hce : st.cookiesEnabled <;> cases hls : st.hasLS <;>
    simp [clearLotameCache, setCookie, removeDataFromLocalStorage, hce, hls, h] <;> split <;> simp_all

theorem setProfileId_cookies_ne (st : Storage) (now : Int) (p : String)
    (q : String) (h : q ≠ KEY_PROFILE) :
    (setProfileId st now p).cookies q = st.cookies q := by
  cases hce : st.cookiesEnabled <;> cases hls : st.hasLS <;>
    simp [setProfileId, setCookie, setDataInLocalStorage, hce, hls, h]

theorem setProfileId_ls_ne (st : Storage) (now : Int) (p : String)
    (q : String) (h : q ≠ KEY_PROFILE) :
    (setProfileId st now p).ls q = st.ls q := by
  cases hce : st.cookiesEnabled <;> cases hls : st.hasLS <;>
    simp [setProfileId, setCookie, setDataInLocalStorage, hce, hls, h]

theorem saveLotameCache_cookies_self (st : Storage) (now : Int) (k : String)
    (v : JSVal) (e : Int) (hk : k ≠ "") (hv : truthy v = true)
    (hce : st.cookiesEnabled = true) :
    (saveLotameCache st now k v (some e)).cookies k = some (jsToString v, e) := by
  cases hls : st.hasLS <;>
    simp [saveLotameCache, setCookie, setDataInLocalStorage, hce, hls, hk, hv]

theorem saveLotameCache_ls_self (st : Storage) (now : Int) (k : String)
    (v : JSVal) (e : Option Int) (hk : k ≠ "") (hv : truthy v = true)
    (hls : st.hasLS = true) :
    (saveLotameCache st now k v e).ls k = some (jsToString v) := by
  cases hce : st.cookiesEnabled <;>
    simp [saveLotameCache, setCookie, setDataInLocalStorage, hce, hls, hk, hv]

theorem saveLotameCache_ls_exp (st : Storage) (now : Int) (k : String)
    (v : JSVal) (e : Int) (hk : k ≠ "") (hv : truthy v = true)
    (hls : st.hasLS = true) :
    (saveLotameCache st now k v (some e)).ls (k ++ "_exp") = some (intToStr e) := by
  have hne : ¬(k ++ "_exp" = k) := fun hh => (self_ne_exp k) hh.symm
  cases hce : st.cookiesEnabled <;>
    simp [saveLotameCache, setCookie, setDataInLocalStorage, hce, hls, hk, hv, hne]

theorem clearLotameCache_cookies_self (st : Storage) (k : String) (hk : k ≠ "")
    (hce : st.cookiesEnabled = true) :
    (clearLotameCache st k).cookies k = some ("", 0) := by
  cases hls : st.hasLS <;>
    simp [clearLotameCache, setCookie, removeDataFromLocalStorage, hce, hls, hk]

theorem clearLotameCache_ls_self (st : Storage) (k : String) (hk : k ≠ "")
    (hls : st.hasLS = true) :
    (clearLotameCache st k).ls k = none := by
  cases hce : st.cookiesEnabled <;>
    simp [clearLotameCache, setCookie, removeDataFromLocalStorage, hce, hls, hk]

theorem setProfileId_cookies_self (st : Storage) (now : Int) (p : String)
    (hce : st.cookiesEnabled = true) :
    (setProfileId st now p).cookies KEY_PROFILE = some (p, now + NINE_MONTHS_MS) := by
  cases hls : st.hasLS <;>
    simp [setProfileId, setCookie, setDataInLocalStorage, hce, hls]

theorem setProfileId_ls_self (st : Storage) (now : Int) (p : String)
    (hls : st.hasLS = true) :
    (setProfileId st now p).ls KEY_PROFILE = some p := by
  cases hce : st.cookiesEnabled <;>
    simp [setProfileId, setCookie, setDataInLocalStorage, hce, hls]

theorem getFromStorage_congr (st1 st2 : Storage) (now : Int) (key : String)
    (hc : st1.cookies key = st2.cookies key)
    (hl : st1.ls key = st2.ls key)
    (hle : st1.ls (key ++ "_exp") = st2.ls (key ++ "_exp"))
    (hfc : st1.cookiesEnabled = st2.cookiesEnabled)
    (hfl : st1.hasLS = st2.hasLS) :
    getFromStorage st1 now key = getFromStorage st2 now key := by
  simp only [getFromStorage, getCookie, getDataFromLocalStorage, hc, hl, hle, hfc, hfl]

theorem getProfileId_congr (st1 st2 : Storage) (now : Int)
    (hc : st1.cookies KEY_PROFILE = st2.cookies KEY_PROFILE)
    (hl : st1.ls KEY_PROFILE = st2.ls KEY_PROFILE)
    (hfc : st1.cookiesEnabled = st2.cookiesEnabled)
    (hfl : st1.hasLS = st2.hasLS) :
    getProfileId st1 now = getProfileId st2 now := by
  simp only [getProfileId, getCookie, getDataFromLocalStorage, hc, hl, hfc, hfl]

theorem getCurrentPanoId_of_fresh (lc : LotameCache) (now ex : Int) (id : String)
    (hid : id ≠ "") (hdata : lc.data = some id) (hex : lc.expiryTimestampMs = JSNum.int ex) :
    getCurrentPanoId now lc = if now ≤ ex then some id else none := by
  by_cases hle : now ≤ ex
  · have hngt : ¬(ex < now) := by omega
    simp [getCurrentPanoId, hdata, hex, jsGtNum, isEmptyOpt, hid, hngt, hle]
  · have hgt : ex < now := by omega
    simp [getCurrentPanoId, hdata, hex, jsGtNum, isEmptyOpt, hid, hgt, hle]

/-- C2: for a getId call with a configured clientId whose cached client
suppression expiry is in the future (now < clientSuppressionExpiry),
getId returns the suppression marker (id undefined, reason
NO_CLIENT_CONSENT) synchronously, even when a fresh unexpired CoreId is
present in the cache. -/
theorem C2_suppression_precedence (st : Storage) (now ce ex : Int) (c : String)
    (hems : Option (List String)) (hc : c ≠ "")
    (hce : (getLotameLocalCache st now (some c)).clientExpiryTimestampMs = JSNum.int ce)
    (hlt : now < ce)
    (hid : ∃ id, (getLotameLocalCache st now (some c)).data = some id ∧ id ≠ "")
    (hex : (getLotameLocalCache st now (some c)).expiryTimestampMs = JSNum.int ex)
    (hfresh : now ≤ ex) :
    (getId st now (some c) hems).result = GetIdResult.suppressed := by
  simp [getId, isEmptyOpt, hc, hce, jsLtNum, hlt]

theorem C2_suppression_precedence_witness :
    (getId ⟨fun _ => none,
        fun q => if q = "panoramaId_expiry_7" then some "2000"
          else if q = "panoramaId" then some "abc"
          else if q = "panoramaId_expiry" then some "2000" else none,
        true, true⟩ 1000 (some "7") none).result = GetIdResult.suppressed := by
  refine C2_suppression_precedence _ 1000 2000 2000 "7" none ?_ ?_ ?_ ⟨"abc", ?_, ?_⟩ ?_ ?_ <;> decide

/-- C4: for a cached (id, expiry) pair with a non-empty id and a numeric
stored expiry, and no configured clientId, getId returns the id
synchronously iff now ≤ expiry (a value at exactly its expiry timestamp
is still valid); otherwise the deferred-callback path is taken. -/
theorem C4_freshness (st : Storage) (now ex : Int) (id : String)
    (hems : Option (List String)) (hid : id ≠ "")
    (hdata : (getLotameLocalCache st now none).data = some id)
    (hex : (getLotameLocalCache st now none).expiryTimestampMs = JSNum.int ex) :
    ((getId st now none hems).result = GetIdResult.syncId id ↔ now ≤ ex) ∧
    (¬ now ≤ ex → (getId st now none hems).result
      = GetIdResult.deferred (getLotameLocalCache st now none) (getProfileId st now)) := by
  have hcur := getCurrentPanoId_of_fresh (getLotameLocalCache st now none) now ex id hid hdata hex
  by_cases hle : now ≤ ex
  · rw [if_pos hle] at hcur
    simp [getId, isEmptyOpt, hcur, hle, hid]
  · rw [if_neg hle] at hcur
    simp [getId, isEmptyOpt, hcur, hle]

theorem C4_freshness_witness :
    (getId ⟨fun _ => none,
        fun q => if q = "panoramaId" then some "abc"
          else if q = "panoramaId_expiry" then some "2000" else none,
        true, true⟩ 1000 none none).result = GetIdResult.syncId "abc" := by
  refine (C4_freshness _ 1000 2000 "abc" none ?_ ?_ ?_).1.mpr ?_ <;> decide

/-- C5 fails as stated: with clientId 7 under an active suppression
window and a configured hashed identifier (so the linkage POST would
otherwise go out, second conjunct), getId returns the suppression marker
without invoking sendUserData and without issuing the POST. -/
theorem C5_counterexample :
    (getId ⟨fun _ => none,
        fun q => if q = "panoramaId_expiry_7" then some "2000" else none,
        true, true⟩ 1000 (some "7") (some ["hem1"]))
      = { result := GetIdResult.suppressed, sendUserDataCalled := false, sideCallIssued := false } ∧
    sendUserDataIssues (some "7") (some ["hem1"]) = true := by decide

/-- C5 (amended): the linkage-data side call is not unconditional: on
every getId invocation, sendUserData is invoked exactly when the client
suppression early return is not taken, and its POST is issued exactly
when additionally a non-empty clientId and a hashed identifier are
configured; under an active suppression window no side call happens. -/
theorem C5_side_call (st : Storage) (now : Int) (clientId : Option String)
    (hems : Option (List String)) :
    (getId st now clientId hems).sendUserDataCalled
      = !(!(isEmptyOpt clientId)
          && jsLtNum now (getLotameLocalCache st now clientId).clientExpiryTimestampMs) ∧
    (getId st now clientId hems).sideCallIssued
      = ((!(!(isEmptyOpt clientId)
          && jsLtNum now (getLotameLocalCache st now clientId).clientExpiryTimestampMs))
          && sendUserDataIssues clientId hems) := by
  simp only [getId]
  split
  · rename_i h
    simp [h]
  · rename_i h
    rw [Bool.not_eq_true] at h
    split <;> simp [h]

/-- C6 fails as stated: a stored non-numeric client suppression expiry
leaves the loaded field at NaN, not at the sentinel 0. -/
theorem C6_counterexample :
    (getLotameLocalCache ⟨fun _ => none,
        fun q => if q = "panoramaId_expiry_7" then some "not-a-number" else none,
        true, true⟩ 1000 (some "7")).clientExpiryTimestampMs = JSNum.nan ∧
    (getLotameLocalCache ⟨fun _ => none,
        fun q => if q = "panoramaId_expiry_7" then some "not-a-number" else none,
        true, true⟩ 1000 (some "7")).clientExpiryTimestampMs ≠ JSNum.int 0 := by decide

/-- C6 (amended): a stored client suppression expiry that parses to NaN
does not crash the load (the embedded load is total; parseInt yields NaN
rather than throwing, so nothing reaches the catch-and-log path): the
loaded clientExpiryTimestampMs is NaN rather than the sentinel 0, and
since every comparison with NaN is false the suppression check fails:
getId does not return the suppression marker. -/
theorem C6_nan_client_expiry (st : Storage) (now : Int) (c : String)
    (hems : Option (List String)) (hc : c ≠ "")
    (hs : ∃ s, getFromStorage st now (KEY_EXPIRY ++ "_" ++ c) = some s ∧ parseIntJS s = JSNum.nan) :
    (getLotameLocalCache st now (some c)).clientExpiryTimestampMs = JSNum.nan ∧
    (getId st now (some c) hems).result ≠ GetIdResult.suppressed := by
  obtain ⟨s, hraw, hnan⟩ := hs
  have hload : (getLotameLocalCache st now (some c)).clientExpiryTimestampMs = JSNum.nan := by
    cases hge : getFromStorage st now KEY_EXPIRY <;>
      simp [getLotameLocalCache, hge, isEmptyOpt, hc, hraw, hnan]
  refine ⟨hload, ?_⟩
  simp only [getId, hload, jsLtNum, Bool.and_false]
  split
  · simp_all
  · split <;> simp

theorem C6_nan_client_expiry_witness :
    (getLotameLocalCache ⟨fun _ => none,
        fun q => if q = "panoramaId_expiry_7" then some "oops" else none,
        true, true⟩ 1000 (some "7")).clientExpiryTimestampMs = JSNum.nan ∧
    (getId ⟨fun _ => none,
        fun q => if q = "panoramaId_expiry_7" then some "oops" else none,
        true, true⟩ 1000 (some "7") none).result ≠ GetIdResult.suppressed := by
  refine C6_nan_client_expiry _ 1000 "7" none ?_ ⟨"oops", ?_, ?_⟩ <;> decide

/-- C8 fails as stated: the deferred callback is constructed at time
1000 over an empty cache (first conjunct shows the captured snapshot);
by time 2000 the storage holds a fresh CoreId abc with expiry 5000
(second conjunct: a fresh load would see it), yet invoking the callback
re-checks only the captured snapshot, issues the network request and
does not hand the fresh id to the caller (third conjunct). -/
theorem C8_counterexample :
    (getId ⟨fun _ => none, fun _ => none, true, true⟩ 1000 none none).result
      = GetIdResult.deferred ⟨none, JSNum.int 0, JSNum.int 0⟩ none ∧
    getCurrentPanoId 2000 (getLotameLocalCache
      ⟨fun _ => none,
        fun q => if q = "panoramaId" then some "abc"
          else if q = "panoramaId_expiry" then some "5000" else none,
        true, true⟩ 2000 none) = some "abc" ∧
    resolveIdFunction ⟨none, JSNum.int 0, JSNum.int 0⟩ 2000
      = { callbackValue := none, networkIssued := true } := by decide

/-- C8 (amended): the deferred callback re-checks only the localCache
snapshot captured when getId ran, not live storage; because the snapshot
is fixed and the clock only moves forward, a callback constructed while
the snapshot was stale always issues the network request (the immediate
callback branch never fires), regardless of what storage holds at
invocation time. -/
theorem C8_snapshot_recheck (snapshot : LotameCache) (t1 t2 : Int)
    (hstale : getCurrentPanoId t1 snapshot = none) (hle : t1 ≤ t2) :
    resolveIdFunction snapshot t2 = { callbackValue := none, networkIssued := true } := by
  have h2 : getCurrentPanoId t2 snapshot = none := by
    by_cases hde : isEmptyOpt snapshot.data = true
    · simp [getCurrentPanoId, hde]
    · cases hexp : snapshot.expiryTimestampMs with
      | nan =>
        exfalso
        simp [getCurrentPanoId, hexp, jsGtNum, hde] at hstale
        simp [isEmptyOpt] at hde
        rcases hds : snapshot.data with _ | s
        · simp [hds] at hde
        · rw [hds] at hstale; simp_all
      | int e =>
        have he1 : e < t1 := by
          by_contra hcon
          have hngt : ¬(e < t1) := hcon
          simp [getCurrentPanoId, hexp, jsGtNum, hngt, hde] at hstale
          simp [isEmptyOpt] at hde
          rcases hds : snapshot.data with _ | s
          · simp [hds] at hde
          · rw [hds] at hstale; simp_all
        have he2 : e < t2 := by omega
        simp [getCurrentPanoId, hexp, jsGtNum, he2]
  simp [resolveIdFunction, h2, isEmptyOpt]

theorem C8_snapshot_recheck_witness :
    resolveIdFunction ⟨some "x", JSNum.int 5, JSNum.int 0⟩ 20
      = { callbackValue := none, networkIssued := true } := by
  refine C8_snapshot_recheck _ 10 20 ?_ ?_ <;> decide

/-- C9: error paths do not escape the public boundary: decode yields
undefined for non-string input, and the /id response handler on an
absent (falsy) body or on a JSON.parse exception leaves storage
untouched and hands undefined to the callback.  All embedded operations
are total functions: thrown exceptions are represented by the explicit
error constructor and are caught inside the handler, so no exception
value propagates out of decode or getId. -/
theorem C9_no_exception_escape (st : Storage) (now : Int) (cid : Option String) (n : Int) :
    decode JSVal.vundef = none ∧ decode (JSVal.vnum n) = none ∧
    handleIdResponse st now cid none = (st, none) ∧
    handleIdResponse st now cid (some ParsedBody.throwErr) = (st, none) :=
  ⟨rfl, rfl, rfl, rfl⟩

theorem clientKey_ne_empty (c : String) : KEY_EXPIRY ++ "_" ++ c ≠ "" := by
  apply String.ne_of_length_ne
  rw [length_clientKey]
  have h : ("" : String).length = 0 := by decide
  omega

theorem getCookie_of_expired (st : Storage) (now : Int) (k : String)
    (h : st.cookies k = some ("", 0)) (hnow : 0 < now) :
    getCookie st now k = none := by
  have hng : ¬(now < 0) := by omega
  simp [getCookie, h, hng]

theorem getCookie_of_live (st : Storage) (now : Int) (k v : String) (e : Int)
    (h : st.cookies k = some (v, e)) (hlt : now < e) :
    getCookie st now k = some v := by
  simp [getCookie, h, hlt]

theorem getFromStorage_none_of (st : Storage) (now : Int) (k : String)
    (hcook : st.cookiesEnabled = true → getCookie st now k = none)
    (hl : st.ls k = none) :
    getFromStorage st now k = none := by
  have hval : (if st.cookiesEnabled then getCookie st now k else none) = none := by
    by_cases h : st.cookiesEnabled = true
    · simp [h, hcook h]
    · simp [h]
  simp only [getFromStorage, getDataFromLocalStorage]
  rw [hval]
  cases hls : st.hasLS
  · simp
  · simp only [Bool.true_and, if_pos]
    rcases hse : st.ls (k ++ "_exp") with _ | s
    · simpa using hl
    · simp only [hl]
      split
      · split
        · rfl
        · split <;> simp
      · rfl

theorem getProfileId_none_of (st : Storage) (now : Int)
    (hcook : st.cookiesEnabled = true → getCookie st now KEY_PROFILE = none)
    (hl : st.ls KEY_PROFILE = none) :
    getProfileId st now = none := by
  have hval : (if st.cookiesEnabled then getCookie st now KEY_PROFILE else none) = none := by
    by_cases h : st.cookiesEnabled = true
    · simp [h, hcook h]
    · simp [h]
  simp only [getProfileId, getDataFromLocalStorage]
  rw [hval]
  cases hls : st.hasLS <;> simp [isEmptyOpt, hl]

theorem getProfileId_some_of (st : Storage) (now : Int) (p : String) (hp : p ≠ "")
    (hce : st.cookiesEnabled = true)
    (hc : getCookie st now KEY_PROFILE = some p) :
    getProfileId st now = some p := by
  simp [getProfileId, hce, hc, isEmptyOpt, hp]

/-- C10: a cache state holding a CoreId whose global expiry record is
absent loads with expiryTimestampMs left at the sentinel 0, so for any
positive clock the stored id counts as expired: getId never returns any
id synchronously, and (with no clientId configured) always takes the
deferred-callback path. -/
theorem C10_missing_expiry_record (st : Storage) (now : Int) (id : String)
    (hnow : 0 < now)
    (hdata : getFromStorage st now KEY_ID = some id)
    (hexp : getFromStorage st now KEY_EXPIRY = none) :
    (getLotameLocalCache st now none).expiryTimestampMs = JSNum.int 0 ∧
    (∀ cid hems s, (getId st now cid hems).result ≠ GetIdResult.syncId s) ∧
    (∀ hems, (getId st now none hems).result
      = GetIdResult.deferred (getLotameLocalCache st now none) (getProfileId st now)) := by
  have hload : ∀ cid, (getLotameLocalCache st now cid).expiryTimestampMs = JSNum.int 0 := by
    intro cid
    simp only [getLotameLocalCache, hexp]
    split
    · split <;> rfl
    · rfl
  have hcur : ∀ cid, getCurrentPanoId now (getLotameLocalCache st now cid) = none := by
    intro cid
    simp [getCurrentPanoId, hload cid, jsGtNum, hnow]
  refine ⟨hload none, ?_, ?_⟩
  · intro cid hems s
    simp only [getId]
    split
    · simp
    · simp [hcur cid, isEmptyOpt]
  · intro hems
    simp [getId, isEmptyOpt, hcur none]

theorem C10_missing_expiry_record_witness :
    (getId ⟨fun _ => none, fun q => if q = "panoramaId" then some "abc" else none, true, true⟩
        1000 none none).result
      = GetIdResult.deferred
          (getLotameLocalCache
            ⟨fun _ => none, fun q => if q = "panoramaId" then some "abc" else none, true, true⟩
            1000 none)
          (getProfileId
            ⟨fun _ => none, fun q => if q = "panoramaId" then some "abc" else none, true, true⟩
            1000) := by
  exact (C10_missing_expiry_record _ 1000 "abc" (by decide) (by decide) (by decide)).2.2 none

/-- C3 fails as stated: a response with clientId 7, a consent error and
no_consent CLIENT but expiry_ts = 0 is processed, yet no suppression
entry is written to either backend (the saveLotameCache guard drops the
falsy value 0); processing does stop with the state unchanged and the
callback value undefined. -/
theorem C3_counterexample :
    (processResponseIDs ⟨fun _ => none, fun _ => none, true, true⟩ 1000
      ⟨some "p1", some "abc", some "7", some "CLIENT", some 0, false⟩).1.ls
        "panoramaId_expiry_7" = none ∧
    (processResponseIDs ⟨fun _ => none, fun _ => none, true, true⟩ 1000
      ⟨some "p1", some "abc", some "7", some "CLIENT", some 0, false⟩).1.cookies
        "panoramaId_expiry_7" = none ∧
    (processResponseIDs ⟨fun _ => none, fun _ => none, true, true⟩ 1000
      ⟨some "p1", some "abc", some "7", some "CLIENT", some 0, false⟩).2 = none := by
  decide

/-- C3 (amended): for every response processed with a supplied non-empty
clientId that is not consent-error-free and has no_consent = CLIENT:
in every case processing stops with the callback value undefined and no
key other than the client suppression entry and its companion touched
(in particular the global CoreId, its expiry record and ProfileId); when
expiry_ts is present and non-zero (and both backends are enabled) the
suppression entry is written to both backends with value expiry_ts and
its own expiry expiry_ts; when expiry_ts is absent or zero the
saveLotameCache truthiness guard makes the write a no-op and the state
is returned entirely unchanged. -/
theorem C3_client_suppression (st : Storage) (now : Int) (o : ResponseOptions)
    (c : String) (hc : o.clientId = some c) (hcne : c ≠ "")
    (hfree : o.consentIsErrorFree = false) (hnc : o.noConsent = some "CLIENT") :
    (processResponseIDs st now o).2 = none ∧
    (∀ q, q ≠ KEY_EXPIRY ++ "_" ++ c → q ≠ (KEY_EXPIRY ++ "_" ++ c) ++ "_exp" →
      (processResponseIDs st now o).1.cookies q = st.cookies q ∧
      (processResponseIDs st now o).1.ls q = st.ls q) ∧
    (∀ e, o.expiry = some e → e ≠ 0 →
      st.cookiesEnabled = true → st.hasLS = true →
      (processResponseIDs st now o).1.cookies (KEY_EXPIRY ++ "_" ++ c) = some (intToStr e, e) ∧
      (processResponseIDs st now o).1.ls (KEY_EXPIRY ++ "_" ++ c) = some (intToStr e) ∧
      (processResponseIDs st now o).1.ls ((KEY_EXPIRY ++ "_" ++ c) ++ "_exp") = some (intToStr e)) ∧
    (o.expiry = none ∨ o.expiry = some 0 → processResponseIDs st now o = (st, none)) := by
  have hpr : processResponseIDs st now o
      = (saveLotameCache st now (KEY_EXPIRY ++ "_" ++ c) (jsValOfExpiry o.expiry) o.expiry,
          none) := by
    simp [processResponseIDs, hc, hfree, hnc, isEmptyOpt, hcne]
  rw [hpr]
  have hkne : KEY_EXPIRY ++ "_" ++ c ≠ "" := clientKey_ne_empty c
  refine ⟨rfl, ?_, ?_, ?_⟩
  · intro q hq1 hq2
    exact ⟨saveLotameCache_cookies_ne st now _ _ _ q hq1,
      saveLotameCache_ls_ne st now _ _ _ q hq1 hq2⟩
  · intro e hexp he hce hls
    rw [hexp]
    have hv : truthy (jsValOfExpiry (some e)) = true := by simp [jsValOfExpiry, truthy, he]
    refine ⟨?_, ?_, ?_⟩
    · simpa [jsValOfExpiry, jsToString] using
        saveLotameCache_cookies_self st now _ (jsValOfExpiry (some e)) e hkne hv hce
    · simpa [jsValOfExpiry, jsToString] using
        saveLotameCache_ls_self st now _ (jsValOfExpiry (some e)) (some e) hkne hv hls
    · exact saveLotameCache_ls_exp st now _ (jsValOfExpiry (some e)) e hkne hv hls
  · rintro (hexp | hexp) <;> rw [hexp] <;>
      simp [saveLotameCache, jsValOfExpiry, truthy]

theorem C3_client_suppression_witness :
    (processResponseIDs ⟨fun _ => none, fun _ => none, true, true⟩ 1000
      ⟨some "p1", some "abc", some "7", some "CLIENT", some 5000, false⟩).1.ls
        "panoramaId_expiry_7" = some "5000" ∧
    (processResponseIDs ⟨fun _ => none, fun _ => none, true, true⟩ 1000
      ⟨some "p1", some "abc", some "7", some "CLIENT", some 5000, false⟩).2 = none ∧
    processResponseIDs ⟨fun _ => none, fun _ => none, true, true⟩ 1000
      ⟨some "p1", some "abc", some "7", some "CLIENT", none, false⟩
      = (⟨fun _ => none, fun _ => none, true, true⟩, none) := by
  have h := C3_client_suppression ⟨fun _ => none, fun _ => none, true, true⟩ 1000
    ⟨some "p1", some "abc", some "7", some "CLIENT", some 5000, false⟩ "7"
    rfl (by decide) rfl rfl
  have hz := C3_client_suppression ⟨fun _ => none, fun _ => none, true, true⟩ 1000
    ⟨some "p1", some "abc", some "7", some "CLIENT", none, false⟩ "7"
    rfl (by decide) rfl rfl
  have hkey : KEY_EXPIRY ++ "_" ++ "7" = "panoramaId_expiry_7" := by decide
  have hnum : intToStr 5000 = "5000" := by decide
  have h2 := (h.2.2.1 5000 rfl (by decide) rfl rfl).2.1
  rw [hkey, hnum] at h2
  exact ⟨h2, h.1, hz.2.2.2 (Or.inl rfl)⟩

theorem KP_ne_KI : KEY_PROFILE ≠ KEY_ID := by decide

theorem KP_ne_KI_exp : KEY_PROFILE ≠ KEY_ID ++ "_exp" := by decide

theorem KP_ne_KE : KEY_PROFILE ≠ KEY_EXPIRY := by decide

theorem KP_ne_KE_exp : KEY_PROFILE ≠ KEY_EXPIRY ++ "_exp" := by decide

theorem KI_ne_KE : KEY_ID ≠ KEY_EXPIRY := by decide

theorem KI_ne_KE_exp : KEY_ID ≠ KEY_EXPIRY ++ "_exp" := by decide

theorem KI_ne_KP : KEY_ID ≠ KEY_PROFILE := by decide

theorem KI_ne_empty : KEY_ID ≠ "" := by decide

theorem KP_ne_empty : KEY_PROFILE ≠ "" := by decide

theorem getProfileId_after_ops (stA : Storage) (now : Int) (p : String) (hp : p ≠ "")
    (hce : stA.cookiesEnabled = true)
    (hcook : stA.cookies KEY_PROFILE = some (p, now + NINE_MONTHS_MS)) :
    getProfileId stA now = some p := by
  have hMON : (0 : Int) < NINE_MONTHS_MS := by norm_num [NINE_MONTHS_MS]
  exact getProfileId_some_of stA now p hp hce (getCookie_of_live stA now _ p _ hcook (by omega))

theorem tail_profile_persisted (st0 : Storage) (now : Int) (o : ResponseOptions)
    (p : String) (hprof : o.profileId = some p) (hpne : p ≠ "")
    (hcf : o.consentIsErrorFree = true)
    (hce : st0.cookiesEnabled = true) (hls : st0.hasLS = true) :
    getProfileId (processResponseTail st0 now o).1 now = some p := by
  simp only [processResponseTail, hprof, Option.getD_some]
  have hne1 : isNonEmptyStr (some p) = true := by simp [isNonEmptyStr, hpne]
  rw [if_pos hne1, if_pos hcf]
  split <;> dsimp only
  · refine getProfileId_after_ops _ now p hpne (by simp [hce]) ?_
    rw [saveLotameCache_cookies_ne _ _ _ _ _ _ KP_ne_KI]
    exact setProfileId_cookies_self _ now p (by simp [hce])
  · refine getProfileId_after_ops _ now p hpne (by simp [hce]) ?_
    rw [clearLotameCache_cookies_ne _ _ _ KP_ne_KI]
    exact setProfileId_cookies_self _ now p (by simp [hce])

theorem tail_core_persisted (st0 : Storage) (now e : Int) (o : ResponseOptions)
    (p cid : String) (hprof : o.profileId = some p) (hpne : p ≠ "")
    (hcore : o.coreId = some cid) (hcne : cid ≠ "")
    (hexp : o.expiry = some e)
    (hce : st0.cookiesEnabled = true) (hls : st0.hasLS = true) :
    (processResponseTail st0 now o).1.cookies KEY_ID = some (cid, e) ∧
    (processResponseTail st0 now o).1.ls KEY_ID = some cid ∧
    (processResponseTail st0 now o).1.ls (KEY_ID ++ "_exp") = some (intToStr e) ∧
    (processResponseTail st0 now o).2 = some cid := by
  have hne1 : isNonEmptyStr (some p) = true := by simp [isNonEmptyStr, hpne]
  have hne2 : isNonEmptyStr (some cid) = true := by simp [isNonEmptyStr, hcne]
  have hvs : truthy (JSVal.vstr cid) = true := by simp [truthy, hcne]
  simp only [processResponseTail, hprof, hcore, hexp, Option.getD_some]
  rw [if_pos hne1, if_pos hne2]
  dsimp only
  refine ⟨?_, ?_, ?_, rfl⟩
  · simpa [jsToString] using
      saveLotameCache_cookies_self _ now KEY_ID (JSVal.vstr cid) e KI_ne_empty hvs
        (by simp [apply_ite, hce])
  · simpa [jsToString] using
      saveLotameCache_ls_self _ now KEY_ID (JSVal.vstr cid) (some e) KI_ne_empty hvs
        (by simp [apply_ite, hls])
  · exact saveLotameCache_ls_exp _ now KEY_ID (JSVal.vstr cid) e KI_ne_empty hvs
      (by simp [apply_ite, hls])

theorem tail_core_cleared (st0 : Storage) (now : Int) (o : ResponseOptions)
    (p : String) (hprof : o.profileId = some p) (hpne : p ≠ "")
    (hcore : isNonEmptyStr o.coreId = false)
    (hce : st0.cookiesEnabled = true) (hls : st0.hasLS = true) (hnow : 0 < now) :
    getFromStorage (processResponseTail st0 now o).1 now KEY_ID = none ∧
    (processResponseTail st0 now o).2 = none := by
  have hne1 : isNonEmptyStr (some p) = true := by simp [isNonEmptyStr, hpne]
  have hcneg : ¬(isNonEmptyStr o.coreId = true) := by simp [hcore]
  simp only [processResponseTail, hprof, Option.getD_some]
  rw [if_pos hne1, if_neg hcneg]
  dsimp only
  refine ⟨?_, rfl⟩
  apply getFromStorage_none_of
  · intro hceF
    refine getCookie_of_expired _ now KEY_ID ?_ hnow
    exact clearLotameCache_cookies_self _ KEY_ID KI_ne_empty (by simp [apply_ite, hce])
  · exact clearLotameCache_ls_self _ KEY_ID KI_ne_empty (by simp [apply_ite, hls])

theorem tail_no_profile (st0 : Storage) (now : Int) (o : ResponseOptions)
    (hprof : isNonEmptyStr o.profileId = false)
    (hce : st0.cookiesEnabled = true) (hls : st0.hasLS = true) (hnow : 0 < now) :
    (o.consentIsErrorFree = true → getProfileId (processResponseTail st0 now o).1 now = none) ∧
    getFromStorage (processResponseTail st0 now o).1 now KEY_ID = none ∧
    (processResponseTail st0 now o).2 = none := by
  have hpneg : ¬(isNonEmptyStr o.profileId = true) := by simp [hprof]
  simp only [processResponseTail]
  rw [if_neg hpneg]
  refine ⟨?_, ?_, rfl⟩
  · intro hcf
    rw [if_pos hcf]
    dsimp only
    apply getProfileId_none_of
    · intro hceF
      refine getCookie_of_expired _ now KEY_PROFILE ?_ hnow
      rw [clearLotameCache_cookies_ne _ _ _ KP_ne_KI]
      exact clearLotameCache_cookies_self _ KEY_PROFILE KP_ne_empty (by simp [hce])
    · rw [clearLotameCache_ls_ne _ _ _ KP_ne_KI]
      exact clearLotameCache_ls_self _ KEY_PROFILE KP_ne_empty (by simp [hls])
  · apply getFromStorage_none_of
    · intro hceF
      refine getCookie_of_expired _ now KEY_ID ?_ hnow
      exact clearLotameCache_cookies_self _ KEY_ID KI_ne_empty (by simp [apply_ite, hce])
    · exact clearLotameCache_ls_self _ KEY_ID KI_ne_empty (by simp [apply_ite, hls])

/-- C1: for a response processed by processResponseIDs that does not stop
at the client no-consent early return (that case is claim C3), with both
backends enabled, a present expiry_ts and a positive clock: if
profile_id is a non-empty string and the response is consent-error-free,
ProfileId is persisted (read back as that profile id); if additionally
core_id is a non-empty string, CoreId is persisted to both backends with
expiry = expiry_ts and core_id is the value handed to the callback, else
CoreId is cleared; if profile_id is not a non-empty string, ProfileId is
cleared when consent-error-free and CoreId is always cleared, with
undefined handed to the callback. -/
theorem C1_process_response (st : Storage) (now e : Int) (o : ResponseOptions)
    (hstop : ¬(isEmptyOpt o.clientId = false ∧ o.consentIsErrorFree = false
        ∧ o.noConsent = some "CLIENT"))
    (hexp : o.expiry = some e)
    (hce : st.cookiesEnabled = true) (hls : st.hasLS = true) (hnow : 0 < now) :
    (isNonEmptyStr o.profileId = true → o.consentIsErrorFree = true →
        getProfileId (processResponseIDs st now o).1 now = o.profileId) ∧
    (isNonEmptyStr o.profileId = true → isNonEmptyStr o.coreId = true →
        (processResponseIDs st now o).1.cookies KEY_ID = some (o.coreId.getD "", e) ∧
        (processResponseIDs st now o).1.ls KEY_ID = some (o.coreId.getD "") ∧
        (processResponseIDs st now o).1.ls (KEY_ID ++ "_exp") = some (intToStr e) ∧
        (processResponseIDs st now o).2 = o.coreId) ∧
    (isNonEmptyStr o.profileId = true → isNonEmptyStr o.coreId = false →
        getFromStorage (processResponseIDs st now o).1 now KEY_ID = none ∧
        (processResponseIDs st now o).2 = none) ∧
    (isNonEmptyStr o.profileId = false →
        (o.consentIsErrorFree = true → getProfileId (processResponseIDs st now o).1 now = none) ∧
        getFromStorage (processResponseIDs st now o).1 now KEY_ID = none ∧
        (processResponseIDs st now o).2 = none) := by
  obtain ⟨st0, hpr, h0ce, h0ls⟩ :
      ∃ st0, processResponseIDs st now o = processResponseTail st0 now o
        ∧ st0.cookiesEnabled = true ∧ st0.hasLS = true := by
    cases hemp : isEmptyOpt o.clientId
    · cases hcf : o.consentIsErrorFree
      · have hnc : ¬(o.noConsent = some "CLIENT") := fun hh => hstop ⟨hemp, hcf, hh⟩
        refine ⟨st, ?_, hce, hls⟩
        simp [processResponseIDs, hemp, hcf, hnc]
      · refine ⟨clearLotameCache st (KEY_EXPIRY ++ "_" ++ o.clientId.getD ""), ?_,
          by simp [hce], by simp [hls]⟩
        simp [processResponseIDs, hemp, hcf]
    · refine ⟨st, ?_, hce, hls⟩
      simp [processResponseIDs, hemp]
  rw [hpr]
  refine ⟨?_, ?_, ?_, ?_⟩
  · intro hp hcf
    obtain ⟨p, hprof, hpne⟩ : ∃ p, o.profileId = some p ∧ p ≠ "" := by
      rcases hpe : o.profileId with _ | p
      · rw [hpe] at hp; simp [isNonEmptyStr] at hp
      · rw [hpe] at hp
        refine ⟨p, rfl, ?_⟩
        simpa [isNonEmptyStr] using hp
    rw [hprof]
    exact tail_profile_persisted st0 now o p hprof hpne hcf h0ce h0ls
  · intro hp hcid
    obtain ⟨p, hprof, hpne⟩ : ∃ p, o.profileId = some p ∧ p ≠ "" := by
      rcases hpe : o.profileId with _ | p
      · rw [hpe] at hp; simp [isNonEmptyStr] at hp
      · rw [hpe] at hp
        refine ⟨p, rfl, ?_⟩
        simpa [isNonEmptyStr] using hp
    obtain ⟨cid, hcore, hcne⟩ : ∃ cid, o.coreId = some cid ∧ cid ≠ "" := by
      rcases hco : o.coreId with _ | cid
      · rw [hco] at hcid; simp [isNonEmptyStr] at hcid
      · rw [hco] at hcid
        refine ⟨cid, rfl, ?_⟩
        simpa [isNonEmptyStr] using hcid
    have h := tail_core_persisted st0 now e o p cid hprof hpne hcore hcne hexp h0ce h0ls
    rw [hcore]
    simpa [Option.getD_some] using h
  · intro hp hcid
    obtain ⟨p, hprof, hpne⟩ : ∃ p, o.profileId = some p ∧ p ≠ "" := by
      rcases hpe : o.profileId with _ | p
      · rw [hpe] at hp; simp [isNonEmptyStr] at hp
      · rw [hpe] at hp
        refine ⟨p, rfl, ?_⟩
        simpa [isNonEmptyStr] using hp
    exact tail_core_cleared st0 now o p hprof hpne hcid h0ce h0ls hnow
  · intro hp
    exact tail_no_profile st0 now o hp h0ce h0ls hnow

theorem C1_process_response_witness :
    getProfileId (processResponseIDs ⟨fun _ => none, fun _ => none, true, true⟩ 1000
      ⟨some "p1", some "abc", none, none, some 90000, true⟩).1 1000 = some "p1" ∧
    (processResponseIDs ⟨fun _ => none, fun _ => none, true, true⟩ 1000
      ⟨some "p1", some "abc", none, none, some 90000, true⟩).1.cookies KEY_ID
        = some ("abc", 90000) ∧
    (processResponseIDs ⟨fun _ => none, fun _ => none, true, true⟩ 1000
      ⟨some "p1", some "abc", none, none, some 90000, true⟩).2 = some "abc" := by
  have h := C1_process_response ⟨fun _ => none, fun _ => none, true, true⟩ 1000 90000
    ⟨some "p1", some "abc", none, none, some 90000, true⟩
    (by decide) rfl rfl rfl (by decide)
  refine ⟨?_, ?_, ?_⟩
  · exact h.1 (by decide) rfl
  · exact (h.2.1 (by decide) (by decide)).1
  · exact (h.2.1 (by decide) (by decide)).2.2.2

/-- C7: for a non-empty key and value, a saveLotameCache write with
expiry now+1000 (both backends enabled at write time) reads back through
getFromStorage as the value at now+500 and as absent at now+2000, and
this round trip holds regardless of which single backend (cookies or
local storage) is disabled afterwards. -/
theorem C7_round_trip (st : Storage) (now : Int) (k v : String)
    (hk : k ≠ "") (hv : v ≠ "")
    (hce : st.cookiesEnabled = true) (hls : st.hasLS = true)
    (ce2 ls2 : Bool) (hone : ce2 = true ∨ ls2 = true) :
    getFromStorage { saveLotameCache st now k (JSVal.vstr v) (some (now + 1000)) with
        cookiesEnabled := ce2, hasLS := ls2 } (now + 500) k = some v ∧
    getFromStorage { saveLotameCache st now k (JSVal.vstr v) (some (now + 1000)) with
        cookiesEnabled := ce2, hasLS := ls2 } (now + 2000) k = none := by
  have htv : truthy (JSVal.vstr v) = true := by simp [truthy, hv]
  have h1 : (saveLotameCache st now k (JSVal.vstr v) (some (now + 1000))).cookies k
      = some (v, now + 1000) := by
    simpa [jsToString] using
      saveLotameCache_cookies_self st now k (JSVal.vstr v) (now + 1000) hk htv hce
  have h2 : (saveLotameCache st now k (JSVal.vstr v) (some (now + 1000))).ls k = some v := by
    simpa [jsToString] using
      saveLotameCache_ls_self st now k (JSVal.vstr v) (some (now + 1000)) hk htv hls
  have h3 : (saveLotameCache st now k (JSVal.vstr v) (some (now + 1000))).ls (k ++ "_exp")
      = some (intToStr (now + 1000)) :=
    saveLotameCache_ls_exp st now k (JSVal.vstr v) (now + 1000) hk htv hls
  have hpi := parseIntJS_intToStr (now + 1000)
  have hne : intToStr (now + 1000) ≠ "" := by
    intro hh
    rw [hh] at hpi
    have hz : parseIntJS "" = JSNum.nan := rfl
    rw [hz] at hpi
    exact JSNum.noConfusion hpi
  have ha1 : now + 500 < now + 1000 := by omega
  have ha2 : ¬(now + 2000 < now + 1000) := by omega
  have ha3 : (now + 1000) - (now + 500) > 0 := by omega
  have ha4 : ¬((now + 1000) - (now + 2000) > 0) := by omega
  refine ⟨?_, ?_⟩
  · cases hce2 : ce2 <;> cases hls2 : ls2
    · rcases hone with h | h <;> simp_all
    · simp [getFromStorage, getCookie, getDataFromLocalStorage, h1, h2, h3, hne, hpi, ha3]
    · simp [getFromStorage, getCookie, getDataFromLocalStorage, h1, h2, h3, ha1]
    · simp [getFromStorage, getCookie, getDataFromLocalStorage, h1, h2, h3, ha1]
  · cases hce2 : ce2 <;> cases hls2 : ls2
    · simp [getFromStorage, getCookie, getDataFromLocalStorage]
    · simp [getFromStorage, getCookie, getDataFromLocalStorage, h1, h2, h3, hne, hpi, ha4]
    · simp [getFromStorage, getCookie, getDataFromLocalStorage, h1, h2, h3, ha2]
    · simp [getFromStorage, getCookie, getDataFromLocalStorage, h1, h2, h3, hne, hpi, ha2, ha4]

theorem C7_round_trip_witness :
    getFromStorage { saveLotameCache ⟨fun _ => none, fun _ => none, true, true⟩ 0 "K"
        (JSVal.vstr "V") (some 1000) with cookiesEnabled := false, hasLS := true } 500 "K"
      = some "V" ∧
    getFromStorage { saveLotameCache ⟨fun _ => none, fun _ => none, true, true⟩ 0 "K"
        (JSVal.vstr "V") (some 1000) with cookiesEnabled := false, hasLS := true } 2000 "K"
      = none := by
  have h := C7_round_trip ⟨fun _ => none, fun _ => none, true, true⟩ 0 "K" "V"
    (by decide) (by decide) rfl rfl false true (Or.inr rfl)
  simpa using h
